import Mathlib

/-!
Shallow embedding of the MedAlert edge processor core
(repository `medalert-edgeprocessor`).

The embedding follows the JavaScript sources:
- `src/utils/stats.js` (`mean`, `slope`)
- `src/modules/signalValidator.js` (`SignalValidator`)
- `src/modules/signalProcessor.js` (`SignalProcessor`)
- `src/modules/anomalyDetector.js` (documented `AnomalyDetector` version)
- `src/modules/alertManager.js` (`AlertManager`)
- `src/modules/offlineCacheManager.js` (`OfflineCacheManager`)
- `src/edgeProcessor.js` (documented `EdgeProcessor` version)

Modelling conventions:
- JS numbers are embedded as `ℚ` (the code performs only field arithmetic
  and comparisons on them).
- `utils/time.js` is not part of the provided sources.  Modelled from the
  spec: timestamps travel as ISO-8601 strings and `toMs` parses them to a
  numeric millisecond instant, invalid strings parsing to a non-finite
  value.  A measurement therefore carries `timestamp : Option ℤ`, `none`
  standing for a string whose parse is not finite; `Date.now()` values are
  passed explicitly as a `now : ℤ` parameter.
- JS `Map` objects keyed by composite strings are embedded as total
  functions from the composite `String` key, with the same `get() ||`
  defaults as the source.
- Stateful methods become functions returning the result together with the
  updated component state; external I/O collaborators (history repository,
  logger, HTTP transport) have no effect on core state and are omitted,
  exactly as the spec scopes them out.
-/

namespace MedAlert

/-- One physiological sample, `src/models/measurement.js` (`createMeasurement`).
JS `patientId`/`measurementType` may be absent or empty (both falsy); the
empty string models a missing field. -/
structure Measurement where
  measurementId : String
  patientId : String
  measurementType : String
  value : ℚ
  timestamp : Option ℤ
  signalQuality : ℚ
deriving DecidableEq

/-- One `{min,max}` range from the configuration (plausible ranges and
threshold entries share this shape). -/
structure Range where
  min : ℚ
  max : ℚ
deriving DecidableEq

/-- Arithmetic mean, `src/utils/stats.js` `mean`: 0 on the empty array,
otherwise `reduce((a,b)=>a+b,0) / length`. -/
def mean (arr : List ℚ) : ℚ :=
  if arr.length = 0 then 0 else arr.foldl (· + ·) 0 / (arr.length : ℚ)

/-- Least-squares slope of values against index 0..n-1,
`src/utils/stats.js` `slope`. -/
def slope (values : List ℚ) : ℚ :=
  let n := values.length
  if n < 2 then 0
  else
    let xMean : ℚ := ((n : ℚ) - 1) / 2
    let yMean : ℚ := mean values
    let num : ℚ := values.enum.foldl
      (fun acc iv => acc + ((iv.1 : ℚ) - xMean) * (iv.2 - yMean)) 0
    let den : ℚ := values.enum.foldl
      (fun acc iv => acc + ((iv.1 : ℚ) - xMean) * ((iv.1 : ℚ) - xMean)) 0
    if den = 0 then 0 else num / den

/-- Composite map key `patientId|measurementType`, as built by the
validator and the signal processor. -/
def streamKey (patientId measurementType : String) : String :=
  patientId ++ ("|") ++ measurementType

/-- State of `src/modules/signalProcessor.js` `SignalProcessor`:
configured window size plus the `windows` map (`Map.get(key) || []`
embedded as a total function defaulting to `[]`). -/
structure SignalProcessor where
  windowSize : Nat
  windows : String → List Measurement

/-- Eviction loop of `updateMeasurementWindow`:
`while (arr.length > this.windowSize) arr.shift()` (each iteration drops
the oldest entry; an empty array never enters the loop). -/
def trimWindow (windowSize : Nat) : List Measurement → List Measurement
  | [] => []
  | a :: l => if (a :: l).length > windowSize then trimWindow windowSize l
              else a :: l

/-- Append then evict oldest entries beyond capacity,
`SignalProcessor.updateMeasurementWindow` (returns the updated window and
the updated processor, mirroring `return arr` after `this.windows.set`). -/
def SignalProcessor.updateMeasurementWindow (sp : SignalProcessor)
    (patientId measurementType : String) (m : Measurement) :
    List Measurement × SignalProcessor :=
  let key := streamKey patientId measurementType
  let arr := trimWindow sp.windowSize (sp.windows key ++ [m])
  (arr, { sp with windows := fun k => if k = key then arr else sp.windows k })

/-- Iterated `updateMeasurementWindow` over a list of measurements for one
stream, used to state multi-insert properties of the sliding window. -/
def SignalProcessor.insertAll (sp : SignalProcessor)
    (patientId measurementType : String) (ms : List Measurement) :
    SignalProcessor :=
  ms.foldl
    (fun s m => (s.updateMeasurementWindow patientId measurementType m).2) sp

/-- Current raw window, `SignalProcessor.getSlidingWindow`. -/
def SignalProcessor.getSlidingWindow (sp : SignalProcessor)
    (patientId measurementType : String) : List Measurement :=
  sp.windows (streamKey patientId measurementType)

/-- One element of a smoothed window: the source builds fresh objects
`{m, value: avg}`, keeping the raw measurement `m` intact inside. -/
structure SmoothedSample where
  m : Measurement
  value : ℚ
deriving DecidableEq

/-- Derived smoothed window, `SignalProcessor.getSmoothedWindow`: on an
empty raw window the raw (empty) window itself is returned; otherwise every
position is the fresh pair `{m, value: avg}` where `avg` is the global
average of the raw values.  The stored raw window is not touched (the
function returns no updated state because the source performs no
mutation). -/
def SignalProcessor.getSmoothedWindow (sp : SignalProcessor)
    (patientId measurementType : String) : List SmoothedSample :=
  let rawWindow := sp.getSlidingWindow patientId measurementType
  if rawWindow.length = 0 then []
  else
    let values := rawWindow.map Measurement.value
    let avg := values.foldl (· + ·) 0 / (values.length : ℚ)
    rawWindow.map (fun m => { m := m, value := avg })

/-- Fresh derived pair `{m, value: avg}` built by `getSmoothedWindow` for
each raw sample. -/
def smoothAt (avg : ℚ) (m : Measurement) : SmoothedSample :=
  { m := m, value := avg }

/-- Fixture builder mirroring the test helper `makeMeasurement` of
`test/edgeProcessor.test.js`, used by the closed instances below. -/
def sampleMeasurement (measurementId patientId measurementType : String)
    (value : ℚ) (ts : ℤ) (signalQuality : ℚ) : Measurement :=
  { measurementId := measurementId, patientId := patientId,
    measurementType := measurementType, value := value,
    timestamp := some ts, signalQuality := signalQuality }

/-- Fixture single-sample smoothed window sitting exactly on the value 120
boundary, used by the closed instances below. -/
def windowFix : List SmoothedSample :=
  [smoothAt 120 (sampleMeasurement ("m1") ("P1") ("TEMPERATURE") 120 1000 1)]

/-- Result of a validation step: `{ok: true}` or `{ok: false, reason}`. -/
inductive ValidationResult where
  | pass
  | fail (reason : String)
deriving DecidableEq

/-- Boolean `ok` field of a validation result. -/
def ValidationResult.ok : ValidationResult → Bool
  | .pass => true
  | .fail _ => false

/-- Fixed minimum quality floor, `MIN_SIGNAL_QUALITY = 0.3` (the rational
3/10, written in reduced constructor form). -/
def MIN_SIGNAL_QUALITY : ℚ := ⟨3, 10, by decide, by decide⟩

/-- State of `src/modules/signalValidator.js` `SignalValidator`:
configured plausible ranges and the per-stream last-timestamp map
(`lastTimestampByStream`, `Map.get` embedded with `none` for absent). -/
structure SignalValidator where
  plausibleRanges : String → Option Range
  lastTimestampByStream : String → Option ℤ

/-- Quality gate `validateSignalQuality`: `signalQuality` numeric (always
true in the typed embedding) and at least the quality floor. -/
def SignalValidator.validateSignalQuality (m : Measurement) : Bool :=
  decide (m.signalQuality ≥ MIN_SIGNAL_QUALITY)

/-- Range gate `checkValuePlausibility`: the type must have a configured
plausible range and the (numeric) value must lie within it. -/
def SignalValidator.checkValuePlausibility (sv : SignalValidator)
    (m : Measurement) : Bool :=
  match sv.plausibleRanges m.measurementType with
  | none => false
  | some r => decide (m.value ≥ r.min ∧ m.value ≤ r.max)

/-- Per-stream update of the last-timestamp map at one composite key. -/
def SignalValidator.setLastTimestamp (sv : SignalValidator) (key : String)
    (ms : ℤ) : SignalValidator :=
  { sv with lastTimestampByStream :=
      fun k => if k = key then some ms else sv.lastTimestampByStream k }

/-- Temporal gate `verifyTimestampConsistency`: a non-parsing timestamp is
rejected as "invalid timestamp"; a parsed instant strictly below the
stream's last accepted instant is rejected as "out-of-order timestamp";
otherwise the stream's last-seen instant is advanced to this value. -/
def SignalValidator.verifyTimestampConsistency (sv : SignalValidator)
    (m : Measurement) : ValidationResult × SignalValidator :=
  let key := streamKey m.patientId m.measurementType
  match m.timestamp with
  | none => (.fail ("invalid timestamp"), sv)
  | some ms =>
    match sv.lastTimestampByStream key with
    | some last =>
      if ms < last then (.fail ("out-of-order timestamp"), sv)
      else (.pass, sv.setLastTimestamp key ms)
    | none => (.pass, sv.setLastTimestamp key ms)

/-- Full validation `buildValidationResult`, short-circuiting in source
order: structural fields (JS falsiness of an absent or empty id), signal
quality, plausibility, then timestamp consistency. -/
def SignalValidator.buildValidationResult (sv : SignalValidator)
    (m : Measurement) : ValidationResult × SignalValidator :=
  if m.patientId = "" ∨ m.measurementType = "" then
    (.fail ("missing fields"), sv)
  else if SignalValidator.validateSignalQuality m = false then
    (.fail ("low signal quality"), sv)
  else if sv.checkValuePlausibility m = false then
    (.fail ("implausible value"), sv)
  else sv.verifyTimestampConsistency m

/-- Trend sub-configuration `{minPoints, slopeThresholds}`. -/
structure TrendConfig where
  minPoints : Nat
  slopeThresholds : String → Option ℚ

/-- Diagnostic `context` payload of an anomaly: `{last}` for threshold
anomalies, `{slope, last}` for trend anomalies. -/
inductive AnomalyContext where
  | lastSample (last : SmoothedSample)
  | trendSample (slope : ℚ) (last : SmoothedSample)
deriving DecidableEq

/-- Anomaly record, `src/models/anomaly.js`.  `detectionTimestamp` is the
`nowIso()` wall-clock instant, embedded as milliseconds. -/
structure Anomaly where
  anomalyType : String
  measurementType : String
  observedValue : ℚ
  expectedRange : Option Range
  detectionTimestamp : ℤ
  message : String
  context : AnomalyContext
deriving DecidableEq

/-- Factory `createAnomaly` of `src/models/anomaly.js`. -/
def createAnomaly (anomalyType measurementType : String) (observedValue : ℚ)
    (expectedRange : Option Range) (detectionTimestamp : ℤ) (message : String)
    (context : AnomalyContext) : Anomaly :=
  { anomalyType := anomalyType, measurementType := measurementType,
    observedValue := observedValue, expectedRange := expectedRange,
    detectionTimestamp := detectionTimestamp, message := message,
    context := context }

/-- Configuration of `src/modules/anomalyDetector.js` `AnomalyDetector`
(the module is stateless given its configuration). -/
structure AnomalyDetector where
  thresholds : String → Option Range
  trendConfig : TrendConfig

/-- Threshold rule `detectThresholdAnomaly` (documented version): inspects
only the most recent sample of the given window; SPO2 low is strict `<`
against `min`, HEART_RATE high is strict `>` against `max`, TEMPERATURE
high is inclusive `≥` against `max`; empty windows, unknown types and
types without a threshold entry give no anomaly. -/
def AnomalyDetector.detectThresholdAnomaly (det : AnomalyDetector) (now : ℤ)
    (window : List SmoothedSample) (measurementType : String) :
    Option Anomaly :=
  if window.length = 0 then none
  else
    match det.thresholds measurementType with
    | none => none
    | some t =>
      match window.getLast? with
      | none => none
      | some last =>
        if measurementType = ("SPO2") ∧ last.value < t.min then
          some (createAnomaly ("THRESHOLD_LOW") measurementType last.value
            (some t) now (measurementType ++ (" too low"))
            (.lastSample last))
        else if measurementType = ("HEART_RATE") ∧ last.value > t.max then
          some (createAnomaly ("THRESHOLD_HIGH") measurementType last.value
            (some t) now (measurementType ++ (" too high"))
            (.lastSample last))
        else if measurementType = ("TEMPERATURE") ∧ last.value ≥ t.max then
          some (createAnomaly ("THRESHOLD_HIGH") measurementType last.value
            (some t) now (measurementType ++ (" too high"))
            (.lastSample last))
        else none

/-- Trend rule `detectTrendAnomaly`: needs at least `minPoints` samples and
a configured per-type slope limit; SPO2 triggers on `slope ≤ limit`, every
other type on `slope ≥ limit`.  The source message also embeds the slope
rounded via `toFixed(2)`; the embedding keeps the fixed message prefix and
stores the full-precision slope in the context, as the source does. -/
def AnomalyDetector.detectTrendAnomaly (det : AnomalyDetector) (now : ℤ)
    (window : List SmoothedSample) (measurementType : String) :
    Option Anomaly :=
  if window.length < det.trendConfig.minPoints then none
  else
    let values := window.map SmoothedSample.value
    let s := slope values
    match det.trendConfig.slopeThresholds measurementType with
    | none => none
    | some limit =>
      if (measurementType = ("SPO2") ∧ s ≤ limit)
          ∨ (measurementType ≠ ("SPO2") ∧ s ≥ limit) then
        match window.getLast? with
        | none => none
        | some last =>
          some (createAnomaly ("TREND") measurementType last.value none now
            (measurementType ++ (" trend anomaly")) (.trendSample s last))
      else none

/-- Fixture detector with TEMPERATURE and HEART_RATE both capped at max
120, used by the closed instances below. -/
def detFix : AnomalyDetector :=
  { thresholds := fun mt =>
      if mt = ("TEMPERATURE") then some { min := 0, max := 120 }
      else if mt = ("HEART_RATE") then some { min := 0, max := 120 }
      else none,
    trendConfig := { minPoints := 3, slopeThresholds := fun _ => none } }

/-- Alert record, `src/models/alertEvent.js`.  The source stores an ISO
string `timestamp`; it is embedded as the millisecond instant it parses
back to (the offline cache re-parses it with `new Date(...).getTime()`).
`contextualMetadata` is the `{measurementType}` map the orchestrator
passes. -/
structure AlertEvent where
  alertId : String
  patientId : String
  alertType : String
  severityLevel : String
  timestamp : ℤ
  associatedAnomaly : Anomaly
  contextualMetadata : String
deriving DecidableEq

/-- State of `src/modules/alertManager.js` `AlertManager`: debounce
interval, severity policy and the per-key last-emission map. -/
structure AlertManager where
  debounceMs : ℤ
  severityPolicy : String → Option String
  lastAlertByKey : String → Option ℤ

/-- Severity lookup `classifySeverity`: policy entry for the measurement
type, with JS `|| "MEDIUM"` falsiness (absent entry or empty string fall
back to MEDIUM). -/
def AlertManager.classifySeverity (am : AlertManager) (anomaly : Anomaly) :
    String :=
  match am.severityPolicy anomaly.measurementType with
  | some s => if s = "" then ("MEDIUM") else s
  | none => ("MEDIUM")

/-- Composite debounce key `patientId|measurementType|anomalyType`. -/
def debounceKey (patientId : String) (anomaly : Anomaly) : String :=
  patientId ++ ("|") ++ anomaly.measurementType ++ ("|") ++ anomaly.anomalyType

/-- Debounce gate `applyDebounceRules`, with `now = Date.now()` passed
explicitly.  The source test is `if (last && now - last < debounceMs)`,
so an entry is only blocking while it is truthy (a recorded instant 0 is
falsy in JS and does not block); on allow the key's last-emission instant
is overwritten with `now`, on deny the state is untouched. -/
def AlertManager.applyDebounceRules (am : AlertManager) (now : ℤ)
    (patientId : String) (anomaly : Anomaly) : Bool × AlertManager :=
  let key := debounceKey patientId anomaly
  let allow : AlertManager :=
    { am with lastAlertByKey :=
        fun k => if k = key then some now else am.lastAlertByKey k }
  match am.lastAlertByKey key with
  | some last =>
    if last ≠ 0 ∧ now - last < am.debounceMs then (false, am)
    else (true, allow)
  | none => (true, allow)

/-- Alert factory `createAlert`: fresh id from `Date.now()`, severity from
the policy, current timestamp, the anomaly embedded. -/
def AlertManager.createAlert (am : AlertManager) (now : ℤ)
    (patientId : String) (anomaly : Anomaly) (patientContext : String) :
    AlertEvent :=
  { alertId := ("A-") ++ toString now, patientId := patientId,
    alertType := anomaly.anomalyType,
    severityLevel := am.classifySeverity anomaly,
    timestamp := now, associatedAnomaly := anomaly,
    contextualMetadata := patientContext }

/-- Identity publication seam `publishAlert`. -/
def AlertManager.publishAlert (alertEvent : AlertEvent) : AlertEvent :=
  alertEvent

/-- Payload of a cached event: a raw measurement or a built alert. -/
inductive CachedPayload where
  | measurementPayload (m : Measurement)
  | alertPayload (a : AlertEvent)
deriving DecidableEq

/-- Unified cached event `{type, payload, timestamp, synced}` of
`src/modules/offlineCacheManager.js`; `timestamp` is derived from the
payload's own event timestamp, not insertion time. -/
structure CachedEvent where
  type : String
  payload : CachedPayload
  timestamp : ℤ
  synced : Bool
deriving DecidableEq

/-- State of `OfflineCacheManager`: the unified in-memory event queue and
the connectivity flag (online by default). -/
structure OfflineCacheManager where
  events : List CachedEvent
  isOnline : Bool
deriving DecidableEq

/-- Constructor state of `OfflineCacheManager`. -/
def OfflineCacheManager.init : OfflineCacheManager :=
  { events := [], isOnline := true }

/-- Connectivity setter `setOnline` (`!!flag` is the identity on an
embedded boolean). -/
def OfflineCacheManager.setOnline (c : OfflineCacheManager) (flag : Bool) :
    OfflineCacheManager :=
  { c with isOnline := flag }

/-- Connectivity getter `checkConnectivityStatus`. -/
def OfflineCacheManager.checkConnectivityStatus (c : OfflineCacheManager) :
    Bool :=
  c.isOnline

/-- Wrapped form `{type: "measurement", payload, timestamp, synced: false}`
built by `storeMeasurement`: the timestamp is
`new Date(measurement.timestamp).getTime()`, the payload's own instant (the
pipeline only stores validated measurements, whose timestamp parses, so
`getD 0` stands for the unreachable NaN case). -/
def wrapMeasurement (measurement : Measurement) : CachedEvent :=
  { type := ("measurement"), payload := .measurementPayload measurement,
    timestamp := measurement.timestamp.getD 0, synced := false }

/-- Wrapped form `{type: "alert", payload, timestamp, synced: false}` built
by `storeAlert` from the alert's own timestamp. -/
def wrapAlert (alertEvent : AlertEvent) : CachedEvent :=
  { type := ("alert"), payload := .alertPayload alertEvent,
    timestamp := alertEvent.timestamp, synced := false }

/-- Queue append `storeMeasurement`.  The connectivity flag plays no part
here. -/
def OfflineCacheManager.storeMeasurement (c : OfflineCacheManager)
    (measurement : Measurement) : OfflineCacheManager :=
  { c with events := c.events ++ [wrapMeasurement measurement] }

/-- Queue append `storeAlert`.  The connectivity flag plays no part
here. -/
def OfflineCacheManager.storeAlert (c : OfflineCacheManager)
    (alertEvent : AlertEvent) : OfflineCacheManager :=
  { c with events := c.events ++ [wrapAlert alertEvent] }

/-- Comparator `(a, b) => a.timestamp - b.timestamp` of `flushCachedData`,
as the ordering it sorts by. -/
def cachedLe (a b : CachedEvent) : Bool :=
  decide (a.timestamp ≤ b.timestamp)

/-- Drain `flushCachedData` of the cache: returns the queue sorted
ascending by event timestamp and leaves the internal queue empty. -/
def OfflineCacheManager.flushCachedData (c : OfflineCacheManager) :
    List CachedEvent × OfflineCacheManager :=
  (c.events.mergeSort cachedLe, { c with events := [] })

/-- Static configuration document `thresholds.json` consumed by the
`EdgeProcessor` constructor. -/
structure Config where
  plausibleRanges : String → Option Range
  windowSize : Nat
  thresholds : String → Option Range
  trend : TrendConfig
  debounceMs : ℤ
  severityPolicy : String → Option String

/-- Orchestrator state, `src/edgeProcessor.js` (documented version): one
owned instance of each sub-component. -/
structure EdgeProcessor where
  signalValidator : SignalValidator
  signalProcessor : SignalProcessor
  anomalyDetector : AnomalyDetector
  alertManager : AlertManager
  offlineCacheManager : OfflineCacheManager

/-- Constructor wiring of `EdgeProcessor` from the loaded configuration. -/
def EdgeProcessor.init (cfg : Config) : EdgeProcessor :=
  { signalValidator :=
      { plausibleRanges := cfg.plausibleRanges,
        lastTimestampByStream := fun _ => none },
    signalProcessor := { windowSize := cfg.windowSize, windows := fun _ => [] },
    anomalyDetector := { thresholds := cfg.thresholds, trendConfig := cfg.trend },
    alertManager :=
      { debounceMs := cfg.debounceMs, severityPolicy := cfg.severityPolicy,
        lastAlertByKey := fun _ => none },
    offlineCacheManager := OfflineCacheManager.init }

/-- Connectivity toggle forwarded to the cache (`EdgeProcessor.setOnline`). -/
def EdgeProcessor.setOnline (ep : EdgeProcessor) (flag : Bool) : EdgeProcessor :=
  { ep with offlineCacheManager := ep.offlineCacheManager.setOnline flag }

/-- Wrapper `checkQuality` delegating to the validator. -/
def EdgeProcessor.checkQuality (ep : EdgeProcessor) (measurement : Measurement) :
    ValidationResult × SignalValidator :=
  ep.signalValidator.buildValidationResult measurement

/-- Wrapper `cacheEvent` delegating to the cache's `storeMeasurement`. -/
def EdgeProcessor.cacheEvent (ep : EdgeProcessor) (measurement : Measurement) :
    EdgeProcessor :=
  { ep with offlineCacheManager :=
      ep.offlineCacheManager.storeMeasurement measurement }

/-- Wrapper `syncCachedEvents` delegating to the cache's `flushCachedData`. -/
def EdgeProcessor.syncCachedEvents (ep : EdgeProcessor) :
    List CachedEvent × EdgeProcessor :=
  let r := ep.offlineCacheManager.flushCachedData
  (r.1, { ep with offlineCacheManager := r.2 })

/-- Delivery handler `_handleMeasurementDelivery`: online delivery is the
no-op backend seam; offline, the raw measurement is cached. -/
def EdgeProcessor.handleMeasurementDelivery (ep : EdgeProcessor)
    (measurement : Measurement) : EdgeProcessor :=
  if ep.offlineCacheManager.checkConnectivityStatus then ep
  else ep.cacheEvent measurement

/-- Delivery handler `_handleAlertDelivery`: published (identity) when
online, appended to the cache when offline. -/
def EdgeProcessor.handleAlertDelivery (ep : EdgeProcessor)
    (alertEvent : AlertEvent) : AlertEvent × EdgeProcessor :=
  if ep.offlineCacheManager.checkConnectivityStatus then
    (AlertManager.publishAlert alertEvent, ep)
  else
    (alertEvent,
     { ep with offlineCacheManager :=
         ep.offlineCacheManager.storeAlert alertEvent })

/-- Terminal result of `ingestMeasurement`: `{status: "discarded", reason}`,
`{status: "ok", measurement[, note]}` or `{status: "alert", alert, anomaly}`. -/
inductive IngestResult where
  | discarded (reason : String)
  | ok (measurement : Measurement) (note : Option String)
  | alert (alert : AlertEvent) (anomaly : Anomaly)
deriving DecidableEq

/-- Status string of an ingest result. -/
def IngestResult.status : IngestResult → String
  | .discarded _ => ("discarded")
  | .ok _ _ => ("ok")
  | .alert _ _ => ("alert")

/-- Anomaly type carried by an alert ingest result, when any. -/
def IngestResult.anomalyTypeOf : IngestResult → Option String
  | .alert _ a => some a.anomalyType
  | _ => none

/-- Orchestrator state after the accepted-measurement prefix of
`ingestMeasurement`: the validator state returned by `checkQuality`, the
delivery handler (online no-op or offline caching), and the sliding-window
update of this measurement's stream. -/
def EdgeProcessor.afterWindow (ep : EdgeProcessor) (measurement : Measurement) :
    EdgeProcessor :=
  let ep1 := { ep with signalValidator := (ep.checkQuality measurement).2 }
  let ep2 := ep1.handleMeasurementDelivery measurement
  { ep2 with signalProcessor :=
      (ep2.signalProcessor.updateMeasurementWindow measurement.patientId
        measurement.measurementType measurement).2 }

/-- Threshold-or-trend finding `analyzeThreshold(...) || detectTrend(...)`
computed by `ingestMeasurement` on the smoothed window of the updated
processor state.  Exposed as its own definition so theorems can hypothesise
about the finding the pipeline computes. -/
def EdgeProcessor.pipelineFinding (ep : EdgeProcessor) (now : ℤ)
    (measurement : Measurement) : Option Anomaly :=
  let ep3 := ep.afterWindow measurement
  let smoothedWindow := ep3.signalProcessor.getSmoothedWindow
    measurement.patientId measurement.measurementType
  match ep3.anomalyDetector.detectThresholdAnomaly now smoothedWindow
      measurement.measurementType with
  | some a => some a
  | none => ep3.anomalyDetector.detectTrendAnomaly now smoothedWindow
      measurement.measurementType

/-- Full ingest pipeline `EdgeProcessor.ingestMeasurement` (documented
version), with `Date.now()` passed explicitly as `now`: validate (reject →
discarded), deliver-or-cache the raw measurement, update the sliding
window (`afterWindow`), detect on the smoothed window (`pipelineFinding`),
then debounce / build / deliver the alert.  History persistence and
warn/info logging are external collaborators without core state. -/
def EdgeProcessor.ingestMeasurement (ep : EdgeProcessor) (now : ℤ)
    (measurement : Measurement) : IngestResult × EdgeProcessor :=
  let v := ep.checkQuality measurement
  match v.1 with
  | .fail reason => (.discarded reason, { ep with signalValidator := v.2 })
  | .pass =>
    let ep3 := ep.afterWindow measurement
    match ep.pipelineFinding now measurement with
    | none => (.ok measurement none, ep3)
    | some finding =>
      let d := ep3.alertManager.applyDebounceRules now measurement.patientId
        finding
      let ep4 := { ep3 with alertManager := d.2 }
      if d.1 then
        let alertEvent := ep4.alertManager.createAlert now
          measurement.patientId finding measurement.measurementType
        let r := ep4.handleAlertDelivery alertEvent
        (.alert r.1 finding, r.2)
      else (.ok measurement (some ("debounced")), ep4)

/-- Terminal result of the orchestrator's `flushCachedData`:
`{status: "offline", flushed: null}` or `{status: "flushed", flushed:
{measurements, alerts}}` (payloads partitioned back by type tag). -/
inductive FlushResult where
  | offline
  | flushed (measurements : List CachedPayload) (alerts : List CachedPayload)
deriving DecidableEq

/-- Orchestrator flush `EdgeProcessor.flushCachedData`: a no-op returning
the distinct "offline" status while disconnected; online, drains the cache
in chronological order and partitions the payloads back into measurements
and alerts by type tag. -/
def EdgeProcessor.flushCachedData (ep : EdgeProcessor) :
    FlushResult × EdgeProcessor :=
  if ep.offlineCacheManager.checkConnectivityStatus = false then
    (.offline, ep)
  else
    let r := ep.syncCachedEvents
    let measurements := (r.1.filter
      (fun e => e.type == ("measurement"))).map CachedEvent.payload
    let alerts := (r.1.filter
      (fun e => e.type == ("alert"))).map CachedEvent.payload
    (.flushed measurements alerts, r.2)

/-- Fixture configuration mirroring the shape of `config/thresholds.json`
(HEART_RATE max 120, SPO2 min 90, TEMPERATURE max 39, window size 5,
debounce 60000 ms), used by the closed instances below. -/
def cfgFix : Config :=
  { plausibleRanges := fun mt =>
      if mt = ("HEART_RATE") then some { min := 30, max := 250 }
      else if mt = ("SPO2") then some { min := 50, max := 100 }
      else if mt = ("TEMPERATURE") then some { min := 30, max := 45 }
      else none,
    windowSize := 5,
    thresholds := fun mt =>
      if mt = ("HEART_RATE") then some { min := 0, max := 120 }
      else if mt = ("SPO2") then some { min := 90, max := 999 }
      else if mt = ("TEMPERATURE") then some { min := 0, max := 39 }
      else none,
    trend := { minPoints := 3, slopeThresholds := fun _ => none },
    debounceMs := 60000,
    severityPolicy := fun _ => none }

/-- Fixture orchestrator freshly constructed from `cfgFix`. -/
def epFix : EdgeProcessor :=
  EdgeProcessor.init cfgFix

/-- Fixture alert-worthy measurement HEART_RATE=140 (config max 120). -/
def mFix : Measurement :=
  sampleMeasurement ("T-1") ("P001") ("HEART_RATE") 140 1000 1

/-- Fixture anomaly as the threshold rule raises it for a singleton
HEART_RATE=140 window. -/
def anomalyFix : Anomaly :=
  createAnomaly ("THRESHOLD_HIGH") ("HEART_RATE") 140
    (some { min := 0, max := 120 }) 1000 (("HEART_RATE") ++ (" too high"))
    (.lastSample (smoothAt 140 mFix))

/-- Fixture alert event wrapping `anomalyFix`. -/
def alertFix : AlertEvent :=
  { alertId := ("A-") ++ toString (1000 : ℤ), patientId := ("P001"),
    alertType := ("THRESHOLD_HIGH"), severityLevel := ("MEDIUM"),
    timestamp := 1000, associatedAnomaly := anomalyFix,
    contextualMetadata := ("HEART_RATE") }

/-- Fixture anomaly the threshold rule computes for a fresh singleton
HEART_RATE=140 window when detection runs at instant `now`. -/
def anomalyDebAt (now : ℤ) : Anomaly :=
  createAnomaly ("THRESHOLD_HIGH") ("HEART_RATE") 140
    (some { min := 0, max := 120 }) now (("HEART_RATE") ++ (" too high"))
    (.lastSample (smoothAt 140 mFix))

/-- Fixture orchestrator whose debounce map already records an accepted
HEART_RATE THRESHOLD_HIGH emission for P001 at instant 1000. -/
def epDebFix : EdgeProcessor :=
  { epFix with alertManager :=
      { epFix.alertManager with lastAlertByKey := fun k =>
          if k = ("P001|HEART_RATE|THRESHOLD_HIGH") then some 1000
          else none } }

/-- On a non-empty raw window, the smoothed window is the raw window mapped
to pairs whose value is the global mean of the raw values. -/
theorem SignalProcessor.getSmoothedWindow_eq_map_mean (sp : SignalProcessor)
    (patientId measurementType : String)
    (h : sp.getSlidingWindow patientId measurementType ≠ []) :
    sp.getSmoothedWindow patientId measurementType
      = (sp.getSlidingWindow patientId measurementType).map
          (smoothAt (mean ((sp.getSlidingWindow patientId measurementType).map
            Measurement.value))) := by
  have hlen : (sp.getSlidingWindow patientId measurementType).length ≠ 0 := by
    simpa [List.length_eq_zero] using h
  unfold SignalProcessor.getSmoothedWindow mean smoothAt
  simp [hlen, List.length_map]

end MedAlert

namespace MedAlert

/-- C1: for every patient and measurement type, the smoothed window has the
same length as the raw sliding window, every smoothed element's value is
the arithmetic mean of all raw values currently in the window, the raw
measurements are carried unchanged inside the smoothed samples (smoothing
never rewrites raw storage, which the pure embedding reflects by returning
no processor state), and an empty raw window yields an empty smoothed
window. -/
theorem c1_smoothed_window_is_global_mean (sp : SignalProcessor)
    (patientId measurementType : String) :
    (sp.getSmoothedWindow patientId measurementType).length
        = (sp.getSlidingWindow patientId measurementType).length
    ∧ (∀ s ∈ sp.getSmoothedWindow patientId measurementType,
        s.value = mean ((sp.getSlidingWindow patientId measurementType).map
          Measurement.value))
    ∧ (sp.getSmoothedWindow patientId measurementType).map SmoothedSample.m
        = sp.getSlidingWindow patientId measurementType
    ∧ (sp.getSlidingWindow patientId measurementType = []
        → sp.getSmoothedWindow patientId measurementType = []) := by
  by_cases h : sp.getSlidingWindow patientId measurementType = []
  · refine ⟨?_, ?_, ?_, ?_⟩ <;>
      simp [SignalProcessor.getSmoothedWindow, h]
  · have heq := sp.getSmoothedWindow_eq_map_mean patientId measurementType h
    refine ⟨?_, ?_, ?_, ?_⟩
    · rw [heq]; simp
    · intro s hs
      rw [heq] at hs
      rcases List.mem_map.mp hs with ⟨m, _, rfl⟩
      rfl
    · rw [heq, List.map_map]
      have hcomp : SmoothedSample.m ∘ smoothAt
          (mean ((sp.getSlidingWindow patientId measurementType).map
            Measurement.value)) = id := rfl
      rw [hcomp, List.map_id]
    · intro h0
      exact absurd h0 h

/-- Closed instance of the C1 theorem at a concrete processor state,
discharging its hypotheses (`∀ s ∈ …` membership and the empty-window
implication) on a two-sample window. -/
theorem c1_smoothed_window_is_global_mean_witness :
    ∀ s ∈ (SignalProcessor.getSmoothedWindow
        { windowSize := 5,
          windows := fun k =>
            if k = ("P1|HEART_RATE") then
              [{ measurementId := ("m1"), patientId := ("P1"),
                 measurementType := ("HEART_RATE"), value := 80,
                 timestamp := some 1000, signalQuality := 1 },
               { measurementId := ("m2"), patientId := ("P1"),
                 measurementType := ("HEART_RATE"), value := 90,
                 timestamp := some 2000, signalQuality := 1 }]
            else [] }
        ("P1") ("HEART_RATE")),
      s.value = mean (((SignalProcessor.getSlidingWindow
        { windowSize := 5,
          windows := fun k =>
            if k = ("P1|HEART_RATE") then
              [{ measurementId := ("m1"), patientId := ("P1"),
                 measurementType := ("HEART_RATE"), value := 80,
                 timestamp := some 1000, signalQuality := 1 },
               { measurementId := ("m2"), patientId := ("P1"),
                 measurementType := ("HEART_RATE"), value := 90,
                 timestamp := some 2000, signalQuality := 1 }]
            else [] }
        ("P1") ("HEART_RATE"))).map Measurement.value) :=
  (c1_smoothed_window_is_global_mean _ ("P1") ("HEART_RATE")).2.1

/-- While-loop `trimWindow` keeps exactly the last `windowSize` entries:
it equals dropping the surplus prefix. -/
theorem trimWindow_eq_drop (w : Nat) (arr : List Measurement) :
    trimWindow w arr = arr.drop (arr.length - w) := by
  induction arr with
  | nil => simp [trimWindow]
  | cons a l ih =>
    rw [trimWindow]
    by_cases h : (a :: l).length > w
    · rw [if_pos h, ih]
      have hlen : (a :: l).length - w = (l.length - w) + 1 := by
        simp only [List.length_cons]
        simp only [List.length_cons] at h
        omega
      rw [hlen, List.drop_succ_cons]
    · rw [if_neg h]
      have hlen : (a :: l).length - w = 0 := by
        simp only [List.length_cons]
        simp only [List.length_cons, gt_iff_lt, not_lt] at h
        omega
      rw [hlen, List.drop_zero]

/-- The eviction loop never leaves more than `windowSize` entries. -/
theorem trimWindow_length_le (w : Nat) (arr : List Measurement) :
    (trimWindow w arr).length ≤ w := by
  rw [trimWindow_eq_drop, List.length_drop]
  omega

/-- Trimming an already-trimmed prefix before appending changes nothing. -/
theorem trimWindow_append_left (w : Nat) (a b : List Measurement) :
    trimWindow w (trimWindow w a ++ b) = trimWindow w (a ++ b) := by
  rw [trimWindow_eq_drop, trimWindow_eq_drop, trimWindow_eq_drop]
  have hk : a.length - w ≤ a.length := Nat.sub_le _ _
  rw [← List.drop_append_of_le_length hk, List.drop_drop]
  congr 1
  simp only [List.length_drop, List.length_append]
  omega

/-- One `updateMeasurementWindow` call: the stream's window becomes the
trimmed append, the configured size is untouched, other streams keep their
windows. -/
theorem updateMeasurementWindow_eq (sp : SignalProcessor)
    (patientId measurementType : String) (m : Measurement) :
    ((sp.updateMeasurementWindow patientId measurementType m).2).windows
        (streamKey patientId measurementType)
      = trimWindow sp.windowSize
          (sp.windows (streamKey patientId measurementType) ++ [m])
    ∧ ((sp.updateMeasurementWindow patientId measurementType m).2).windowSize
        = sp.windowSize
    ∧ ∀ k, k ≠ streamKey patientId measurementType →
        ((sp.updateMeasurementWindow patientId measurementType m).2).windows k
          = sp.windows k := by
  refine ⟨?_, rfl, ?_⟩
  · simp [SignalProcessor.updateMeasurementWindow]
  · intro k hk
    simp [SignalProcessor.updateMeasurementWindow, hk]

/-- Iterating `updateMeasurementWindow` from a trimmed window accumulates
every inserted measurement under one joint trim. -/
theorem insertAll_windows_eq (patientId measurementType : String) :
    ∀ (ms : List Measurement) (sp : SignalProcessor) (a : List Measurement),
      sp.windows (streamKey patientId measurementType)
          = trimWindow sp.windowSize a →
      (sp.insertAll patientId measurementType ms).windows
          (streamKey patientId measurementType)
        = trimWindow sp.windowSize (a ++ ms)
      ∧ (sp.insertAll patientId measurementType ms).windowSize
        = sp.windowSize := by
  intro ms
  induction ms with
  | nil =>
    intro sp a h
    exact ⟨by simpa [SignalProcessor.insertAll] using h, rfl⟩
  | cons m ms ih =>
    intro sp a h
    have hstep : sp.insertAll patientId measurementType (m :: ms)
        = ((sp.updateMeasurementWindow patientId measurementType m).2).insertAll
            patientId measurementType ms := rfl
    have h1 : ((sp.updateMeasurementWindow patientId measurementType m).2).windows
        (streamKey patientId measurementType)
        = trimWindow ((sp.updateMeasurementWindow patientId
            measurementType m).2).windowSize (a ++ [m]) := by
      have hw := (updateMeasurementWindow_eq sp patientId measurementType m).1
      rw [hw, h, trimWindow_append_left]
      rfl
    obtain ⟨ha, hb⟩ :=
      ih ((sp.updateMeasurementWindow patientId measurementType m).2)
        (a ++ [m]) h1
    rw [hstep]
    refine ⟨?_, hb⟩
    rw [ha]
    have hassoc : (a ++ [m]) ++ ms = a ++ m :: ms := by simp
    rw [hassoc]
    rfl

/-- C4: one update never leaves a stream's window longer than the
configured `windowSize`, and inserting `N > windowSize` measurements into a
fresh processor leaves the stream holding exactly the last `windowSize`
inserted measurements in insertion order. -/
theorem c4_sliding_window_invariant (sp : SignalProcessor)
    (patientId measurementType : String) (m : Measurement) (wsz : Nat)
    (ms : List Measurement) (hN : ms.length > wsz) :
    (((sp.updateMeasurementWindow patientId measurementType m).2).getSlidingWindow
        patientId measurementType).length ≤ sp.windowSize
    ∧ (SignalProcessor.insertAll ⟨wsz, fun _ => []⟩ patientId measurementType
        ms).getSlidingWindow patientId measurementType
        = ms.drop (ms.length - wsz)
    ∧ ((SignalProcessor.insertAll ⟨wsz, fun _ => []⟩ patientId measurementType
        ms).getSlidingWindow patientId measurementType).length = wsz := by
  have h0 : (⟨wsz, fun _ => []⟩ : SignalProcessor).windows
      (streamKey patientId measurementType) = trimWindow wsz [] := by
    simp [trimWindow]
  obtain ⟨ha, _⟩ :=
    insertAll_windows_eq patientId measurementType ms ⟨wsz, fun _ => []⟩ [] h0
  have hwin : (SignalProcessor.insertAll ⟨wsz, fun _ => []⟩ patientId
      measurementType ms).getSlidingWindow patientId measurementType
      = trimWindow wsz ms := by
    simpa [SignalProcessor.getSlidingWindow] using ha
  refine ⟨?_, ?_, ?_⟩
  · have hw := (updateMeasurementWindow_eq sp patientId measurementType m).1
    have : ((sp.updateMeasurementWindow patientId measurementType
        m).2).getSlidingWindow patientId measurementType
        = trimWindow sp.windowSize
            (sp.windows (streamKey patientId measurementType) ++ [m]) := hw
    rw [this]
    exact trimWindow_length_le _ _
  · rw [hwin, trimWindow_eq_drop]
  · rw [hwin, trimWindow_eq_drop, List.length_drop]
    omega

/-- Closed instance of the C4 theorem: window size 2, three insertions,
`3 > 2` discharged concretely; the fresh stream ends holding the last two
measurements. -/
theorem c4_sliding_window_invariant_witness :
    ((((⟨2, fun _ => []⟩ : SignalProcessor).updateMeasurementWindow ("P1")
        ("HEART_RATE") (sampleMeasurement ("m1") ("P1") ("HEART_RATE") 80
          1000 1)).2).getSlidingWindow ("P1") ("HEART_RATE")).length ≤ 2
    ∧ (SignalProcessor.insertAll ⟨2, fun _ => []⟩ ("P1") ("HEART_RATE")
        [sampleMeasurement ("m1") ("P1") ("HEART_RATE") 80 1000 1,
         sampleMeasurement ("m2") ("P1") ("HEART_RATE") 81 2000 1,
         sampleMeasurement ("m3") ("P1") ("HEART_RATE") 82 3000 1]).getSlidingWindow
        ("P1") ("HEART_RATE")
        = [sampleMeasurement ("m1") ("P1") ("HEART_RATE") 80 1000 1,
           sampleMeasurement ("m2") ("P1") ("HEART_RATE") 81 2000 1,
           sampleMeasurement ("m3") ("P1") ("HEART_RATE") 82 3000 1].drop
          ([sampleMeasurement ("m1") ("P1") ("HEART_RATE") 80 1000 1,
            sampleMeasurement ("m2") ("P1") ("HEART_RATE") 81 2000 1,
            sampleMeasurement ("m3") ("P1") ("HEART_RATE") 82 3000 1].length - 2)
    ∧ ((SignalProcessor.insertAll ⟨2, fun _ => []⟩ ("P1") ("HEART_RATE")
        [sampleMeasurement ("m1") ("P1") ("HEART_RATE") 80 1000 1,
         sampleMeasurement ("m2") ("P1") ("HEART_RATE") 81 2000 1,
         sampleMeasurement ("m3") ("P1") ("HEART_RATE") 82 3000 1]).getSlidingWindow
        ("P1") ("HEART_RATE")).length = 2 :=
  c4_sliding_window_invariant ⟨2, fun _ => []⟩ ("P1") ("HEART_RATE")
    (sampleMeasurement ("m1") ("P1") ("HEART_RATE") 80 1000 1) 2
    [sampleMeasurement ("m1") ("P1") ("HEART_RATE") 80 1000 1,
     sampleMeasurement ("m2") ("P1") ("HEART_RATE") 81 2000 1,
     sampleMeasurement ("m3") ("P1") ("HEART_RATE") 82 3000 1] (by decide)

/-- A window with a last element is not empty. -/
theorem length_ne_zero_of_getLast? {window : List SmoothedSample}
    {last : SmoothedSample} (hlast : window.getLast? = some last) :
    ¬ window.length = 0 := by
  intro h0
  rw [List.length_eq_zero] at h0
  subst h0
  exact Option.noConfusion hlast

/-- Threshold rule on a TEMPERATURE window: fires exactly on the inclusive
boundary test `last.value ≥ max`. -/
theorem detectThresholdAnomaly_temperature_eq (det : AnomalyDetector)
    (now : ℤ) (window : List SmoothedSample) (last : SmoothedSample)
    (tT : Range) (hlast : window.getLast? = some last)
    (hT : det.thresholds ("TEMPERATURE")  = some tT) :
    det.detectThresholdAnomaly now window ("TEMPERATURE")
      = if last.value ≥ tT.max then
          some (createAnomaly ("THRESHOLD_HIGH") ("TEMPERATURE") last.value
            (some tT) now (("TEMPERATURE") ++ (" too high"))
            (.lastSample last))
        else none := by
  have hne := length_ne_zero_of_getLast? hlast
  simp [AnomalyDetector.detectThresholdAnomaly, hne, hT, hlast]

/-- Threshold rule on a HEART_RATE window: fires exactly on the exclusive
boundary test `last.value > max`. -/
theorem detectThresholdAnomaly_heartRate_eq (det : AnomalyDetector)
    (now : ℤ) (window : List SmoothedSample) (last : SmoothedSample)
    (tH : Range) (hlast : window.getLast? = some last)
    (hH : det.thresholds ("HEART_RATE") = some tH) :
    det.detectThresholdAnomaly now window ("HEART_RATE")
      = if last.value > tH.max then
          some (createAnomaly ("THRESHOLD_HIGH") ("HEART_RATE") last.value
            (some tH) now (("HEART_RATE") ++ (" too high"))
            (.lastSample last))
        else none := by
  have hne := length_ne_zero_of_getLast? hlast
  simp [AnomalyDetector.detectThresholdAnomaly, hne, hH, hlast]

/-- C3: with a non-empty window and configured thresholds,
`detectThresholdAnomaly` raises THRESHOLD_HIGH for TEMPERATURE exactly when
the last value is at least the configured max (inclusive boundary), but for
HEART_RATE exactly when it is strictly greater; in particular HEART_RATE at
the max raises nothing while TEMPERATURE at the max raises an anomaly. -/
theorem c3_threshold_boundary_asymmetry (det : AnomalyDetector) (now : ℤ)
    (window : List SmoothedSample) (last : SmoothedSample) (tT tH : Range)
    (hlast : window.getLast? = some last)
    (hT : det.thresholds ("TEMPERATURE") = some tT)
    (hH : det.thresholds ("HEART_RATE") = some tH) :
    (det.detectThresholdAnomaly now window ("TEMPERATURE") ≠ none
        ↔ last.value ≥ tT.max)
    ∧ (∀ a, det.detectThresholdAnomaly now window ("TEMPERATURE") = some a
        → a.anomalyType = ("THRESHOLD_HIGH"))
    ∧ (det.detectThresholdAnomaly now window ("HEART_RATE") ≠ none
        ↔ last.value > tH.max)
    ∧ (∀ a, det.detectThresholdAnomaly now window ("HEART_RATE") = some a
        → a.anomalyType = ("THRESHOLD_HIGH"))
    ∧ (last.value = tH.max
        → det.detectThresholdAnomaly now window ("HEART_RATE") = none)
    ∧ (last.value = tT.max
        → det.detectThresholdAnomaly now window ("TEMPERATURE") ≠ none) := by
  have hTeq := detectThresholdAnomaly_temperature_eq det now window last tT
    hlast hT
  have hHeq := detectThresholdAnomaly_heartRate_eq det now window last tH
    hlast hH
  refine ⟨?_, ?_, ?_, ?_, ?_, ?_⟩
  · rw [hTeq]
    by_cases hv : last.value ≥ tT.max <;> simp [hv]
  · intro a ha
    rw [hTeq] at ha
    by_cases hv : last.value ≥ tT.max
    · rw [if_pos hv] at ha
      cases ha
      rfl
    · rw [if_neg hv] at ha
      exact Option.noConfusion ha
  · rw [hHeq]
    by_cases hv : last.value > tH.max <;> simp [hv]
  · intro a ha
    rw [hHeq] at ha
    by_cases hv : last.value > tH.max
    · rw [if_pos hv] at ha
      cases ha
      rfl
    · rw [if_neg hv] at ha
      exact Option.noConfusion ha
  · intro hv
    rw [hHeq]
    simp [hv]
  · intro hv
    rw [hTeq]
    simp [hv]

/-- Closed instance of the C3 theorem: both thresholds set to max 120, a
single-sample window whose value sits exactly on the boundary. -/
theorem c3_threshold_boundary_asymmetry_witness :
    (detFix.detectThresholdAnomaly 1000 windowFix ("HEART_RATE") = none)
    ∧ (detFix.detectThresholdAnomaly 1000 windowFix ("TEMPERATURE")
        ≠ none) := by
  have h := c3_threshold_boundary_asymmetry detFix 1000 windowFix
    (smoothAt 120 (sampleMeasurement ("m1") ("P1") ("TEMPERATURE") 120 1000 1))
    { min := 0, max := 120 } { min := 0, max := 120 } (by rfl) (by rfl)
    (by rfl)
  exact ⟨h.2.2.2.2.1 (by rfl), h.2.2.2.2.2 (by rfl)⟩

/-- Pointwise behaviour of the last-timestamp map update. -/
theorem setLastTimestamp_apply (sv : SignalValidator) (key : String)
    (ms : ℤ) :
    (sv.setLastTimestamp key ms).lastTimestampByStream key = some ms
    ∧ ∀ k, k ≠ key →
        (sv.setLastTimestamp key ms).lastTimestampByStream k
          = sv.lastTimestampByStream k := by
  constructor
  · simp [SignalValidator.setLastTimestamp]
  · intro k hk
    simp [SignalValidator.setLastTimestamp, hk]

/-- Case analysis of `verifyTimestampConsistency`: acceptance advances
exactly this stream's high-water mark to the measurement's instant;
rejection returns the validator untouched. -/
theorem verifyTimestampConsistency_cases (sv : SignalValidator)
    (m : Measurement) :
    ((sv.verifyTimestampConsistency m).1 = .pass
      → ∃ ms, m.timestamp = some ms
          ∧ (sv.verifyTimestampConsistency m).2
            = sv.setLastTimestamp (streamKey m.patientId m.measurementType) ms)
    ∧ (∀ r, (sv.verifyTimestampConsistency m).1 = .fail r
      → (sv.verifyTimestampConsistency m).2 = sv) := by
  rcases ht : m.timestamp with _ | ms
  · constructor
    · intro hp
      simp [SignalValidator.verifyTimestampConsistency, ht] at hp
    · intro r _
      simp [SignalValidator.verifyTimestampConsistency, ht]
  · rcases hl : sv.lastTimestampByStream
        (streamKey m.patientId m.measurementType) with _ | last
    · constructor
      · intro _
        exact ⟨ms, rfl, by simp [SignalValidator.verifyTimestampConsistency, ht, hl]⟩
      · intro r hr
        simp [SignalValidator.verifyTimestampConsistency, ht, hl] at hr
    · by_cases hlt : ms < last
      · constructor
        · intro hp
          simp [SignalValidator.verifyTimestampConsistency, ht, hl, hlt] at hp
        · intro r _
          simp [SignalValidator.verifyTimestampConsistency, ht, hl, hlt]
      · constructor
        · intro _
          exact ⟨ms, rfl,
            by simp [SignalValidator.verifyTimestampConsistency, ht, hl, hlt]⟩
        · intro r hr
          simp [SignalValidator.verifyTimestampConsistency, ht, hl, hlt] at hr

/-- C7: on one (patientId, measurementType) stream, after a measurement is
accepted by the temporal gate, a second measurement with a strictly smaller
instant is rejected with reason "out-of-order timestamp" (state untouched),
while a second measurement with an equal instant passes. -/
theorem c7_out_of_order_strict_equal_accepted (sv : SignalValidator)
    (m1 m2 : Measurement) (ms1 ms2 : ℤ)
    (hp : m2.patientId = m1.patientId)
    (hm : m2.measurementType = m1.measurementType)
    (ht1 : m1.timestamp = some ms1) (ht2 : m2.timestamp = some ms2)
    (hacc : (sv.verifyTimestampConsistency m1).1 = .pass) :
    (ms2 < ms1 →
      ((sv.verifyTimestampConsistency m1).2.verifyTimestampConsistency m2).1
        = .fail ("out-of-order timestamp")
      ∧ ((sv.verifyTimestampConsistency m1).2.verifyTimestampConsistency m2).2
        = (sv.verifyTimestampConsistency m1).2)
    ∧ (ms2 = ms1 →
      ((sv.verifyTimestampConsistency m1).2.verifyTimestampConsistency m2).1
        = .pass) := by
  obtain ⟨ms, hms, hstate⟩ := (verifyTimestampConsistency_cases sv m1).1 hacc
  rw [ht1] at hms
  cases hms
  have hkey : streamKey m2.patientId m2.measurementType
      = streamKey m1.patientId m1.measurementType := by
    rw [hp, hm]
  have hlook : (sv.verifyTimestampConsistency m1).2.lastTimestampByStream
      (streamKey m2.patientId m2.measurementType) = some ms1 := by
    rw [hkey, hstate]
    exact (setLastTimestamp_apply sv _ ms1).1
  generalize hsv1 : (sv.verifyTimestampConsistency m1).2 = sv1 at hlook ⊢
  constructor
  · intro hlt
    constructor
    · simp [SignalValidator.verifyTimestampConsistency, ht2, hlook, hlt]
    · simp [SignalValidator.verifyTimestampConsistency, ht2, hlook, hlt]
  · intro heq
    have hnlt : ¬ ms2 < ms1 := by omega
    simp [SignalValidator.verifyTimestampConsistency, ht2, hlook, hnlt]

/-- Closed instance of the C7 theorem: a fresh stream accepts instant 2000,
then rejects instant 1000 as out-of-order and accepts a repeat of 2000. -/
theorem c7_out_of_order_strict_equal_accepted_witness :
    ((1000 : ℤ) < 2000 →
      ((SignalValidator.verifyTimestampConsistency
          ⟨fun _ => none, fun _ => none⟩
          (sampleMeasurement ("m1") ("P1") ("HEART_RATE") 80 2000
            1)).2.verifyTimestampConsistency
          (sampleMeasurement ("m2") ("P1") ("HEART_RATE") 81 1000 1)).1
        = .fail ("out-of-order timestamp")
      ∧ ((SignalValidator.verifyTimestampConsistency
          ⟨fun _ => none, fun _ => none⟩
          (sampleMeasurement ("m1") ("P1") ("HEART_RATE") 80 2000
            1)).2.verifyTimestampConsistency
          (sampleMeasurement ("m2") ("P1") ("HEART_RATE") 81 1000 1)).2
        = (SignalValidator.verifyTimestampConsistency
            ⟨fun _ => none, fun _ => none⟩
            (sampleMeasurement ("m1") ("P1") ("HEART_RATE") 80 2000 1)).2)
    ∧ ((1000 : ℤ) = 2000 →
      ((SignalValidator.verifyTimestampConsistency
          ⟨fun _ => none, fun _ => none⟩
          (sampleMeasurement ("m1") ("P1") ("HEART_RATE") 80 2000
            1)).2.verifyTimestampConsistency
          (sampleMeasurement ("m2") ("P1") ("HEART_RATE") 81 1000 1)).1
        = .pass) :=
  c7_out_of_order_strict_equal_accepted ⟨fun _ => none, fun _ => none⟩
    (sampleMeasurement ("m1") ("P1") ("HEART_RATE") 80 2000 1)
    (sampleMeasurement ("m2") ("P1") ("HEART_RATE") 81 1000 1)
    2000 1000 (by rfl) (by rfl) (by rfl) (by rfl) (by rfl)

/-- C8: `buildValidationResult` is atomic on failure — every rejecting
outcome (missing fields, low quality, implausible value, invalid or
out-of-order timestamp) returns the validator state untouched — and on
success the measurement's own instant becomes this stream's last-seen
value while every other stream's entry is unchanged. -/
theorem c8_buildValidationResult_atomic (sv : SignalValidator)
    (m : Measurement) :
    (∀ r, (sv.buildValidationResult m).1 = .fail r
        → (sv.buildValidationResult m).2 = sv)
    ∧ ((sv.buildValidationResult m).1 = .pass
        → ∃ ms, m.timestamp = some ms
            ∧ (sv.buildValidationResult m).2.lastTimestampByStream
                (streamKey m.patientId m.measurementType) = some ms
            ∧ ∀ k, k ≠ streamKey m.patientId m.measurementType
                → (sv.buildValidationResult m).2.lastTimestampByStream k
                    = sv.lastTimestampByStream k) := by
  by_cases h1 : m.patientId = ("") ∨ m.measurementType = ("")
  · constructor
    · intro r _
      simp [SignalValidator.buildValidationResult, h1]
    · intro hp
      simp [SignalValidator.buildValidationResult, h1] at hp
  · by_cases h2 : SignalValidator.validateSignalQuality m = false
    · constructor
      · intro r _
        simp [SignalValidator.buildValidationResult, h1, h2]
      · intro hp
        simp [SignalValidator.buildValidationResult, h1, h2] at hp
    · by_cases h3 : sv.checkValuePlausibility m = false
      · constructor
        · intro r _
          simp [SignalValidator.buildValidationResult, h1, h2, h3]
        · intro hp
          simp [SignalValidator.buildValidationResult, h1, h2, h3] at hp
      · have hbv : sv.buildValidationResult m
            = sv.verifyTimestampConsistency m := by
          simp [SignalValidator.buildValidationResult, h1, h2, h3]
        rw [hbv]
        constructor
        · exact fun r hr => (verifyTimestampConsistency_cases sv m).2 r hr
        · intro hp
          obtain ⟨ms, hms, hstate⟩ :=
            (verifyTimestampConsistency_cases sv m).1 hp
          refine ⟨ms, hms, ?_, ?_⟩
          · rw [hstate]
            exact (setLastTimestamp_apply sv _ ms).1
          · intro k hk
            rw [hstate]
            exact (setLastTimestamp_apply sv _ ms).2 k hk

/-- Closed instance of the C8 theorem: a failing validation (quality 0.1)
leaves the fresh validator untouched, and a passing one advances exactly
the P1/HEART_RATE stream to instant 1000. -/
theorem c8_buildValidationResult_atomic_witness :
    ((SignalValidator.buildValidationResult ⟨fun _ => some ⟨30, 250⟩, fun _ => none⟩
        (sampleMeasurement ("m1") ("P1") ("HEART_RATE") 80 1000 1)).1 = .pass
      → ∃ ms, (sampleMeasurement ("m1") ("P1") ("HEART_RATE") 80 1000
            1).timestamp = some ms
          ∧ (SignalValidator.buildValidationResult
              ⟨fun _ => some ⟨30, 250⟩, fun _ => none⟩
              (sampleMeasurement ("m1") ("P1") ("HEART_RATE") 80 1000
                1)).2.lastTimestampByStream
              (streamKey ("P1") ("HEART_RATE")) = some ms
          ∧ ∀ k, k ≠ streamKey ("P1") ("HEART_RATE")
              → (SignalValidator.buildValidationResult
                  ⟨fun _ => some ⟨30, 250⟩, fun _ => none⟩
                  (sampleMeasurement ("m1") ("P1") ("HEART_RATE") 80 1000
                    1)).2.lastTimestampByStream k = none) :=
  (c8_buildValidationResult_atomic ⟨fun _ => some ⟨30, 250⟩, fun _ => none⟩
    (sampleMeasurement ("m1") ("P1") ("HEART_RATE") 80 1000 1)).2

/-- Field decomposition of the accepted-measurement pipeline prefix
`afterWindow`: only this stream's window and the validator advance, the
cache gains at most the delivered raw measurement, and connectivity is
untouched. -/
theorem afterWindow_fields (ep : EdgeProcessor) (m : Measurement) :
    (ep.afterWindow m).signalProcessor
      = (ep.signalProcessor.updateMeasurementWindow m.patientId
          m.measurementType m).2
    ∧ (ep.afterWindow m).anomalyDetector = ep.anomalyDetector
    ∧ (ep.afterWindow m).alertManager = ep.alertManager
    ∧ (ep.afterWindow m).signalValidator = (ep.checkQuality m).2
    ∧ (ep.afterWindow m).offlineCacheManager.isOnline
        = ep.offlineCacheManager.isOnline
    ∧ ∃ tail, (ep.afterWindow m).offlineCacheManager.events
        = ep.offlineCacheManager.events ++ tail := by
  by_cases h : ep.offlineCacheManager.isOnline
  · refine ⟨?_, ?_, ?_, ?_, ?_, [], ?_⟩ <;>
      simp [EdgeProcessor.afterWindow, EdgeProcessor.handleMeasurementDelivery,
        OfflineCacheManager.checkConnectivityStatus, h]
  · refine ⟨?_, ?_, ?_, ?_, ?_, [wrapMeasurement m], ?_⟩ <;>
      simp [EdgeProcessor.afterWindow, EdgeProcessor.handleMeasurementDelivery,
        EdgeProcessor.cacheEvent, OfflineCacheManager.storeMeasurement,
        OfflineCacheManager.checkConnectivityStatus, h]

/-- Alert delivery either publishes (identity, online) or appends the
wrapped alert to the cache queue (offline). -/
theorem handleAlertDelivery_cases (ep : EdgeProcessor) (a : AlertEvent) :
    (ep.offlineCacheManager.isOnline = true → ep.handleAlertDelivery a = (a, ep))
    ∧ (ep.offlineCacheManager.isOnline = false →
        ep.handleAlertDelivery a
          = (a, { ep with offlineCacheManager :=
              ep.offlineCacheManager.storeAlert a })) := by
  constructor <;> intro h <;>
    simp [EdgeProcessor.handleAlertDelivery,
      OfflineCacheManager.checkConnectivityStatus, h,
      AlertManager.publishAlert]

/-- The cache queue grows by at most the delivered alert during alert
delivery. -/
theorem handleAlertDelivery_events (ep : EdgeProcessor) (a : AlertEvent) :
    ∃ t, ((ep.handleAlertDelivery a).2).offlineCacheManager.events
      = ep.offlineCacheManager.events ++ t := by
  by_cases h : ep.offlineCacheManager.isOnline
  · exact ⟨[], by
      rw [(handleAlertDelivery_cases ep a).1 h]
      simp⟩
  · refine ⟨[wrapAlert a], ?_⟩
    rw [(handleAlertDelivery_cases ep a).2 (by simpa using h)]
    simp [OfflineCacheManager.storeAlert]

/-- C9: while the connectivity flag is offline the orchestrator's
`flushCachedData` returns the distinct offline status and leaves the whole
state (the cached queue included) unchanged; and no other orchestrator
operation ever removes buffered events — `ingestMeasurement` only appends
to the queue and `setOnline` leaves it untouched — so events leave the
cache only through a flush performed while online. -/
theorem c9_offline_flush_noop_and_cache_retained (ep : EdgeProcessor)
    (now : ℤ) (m : Measurement) (flag : Bool) :
    (ep.offlineCacheManager.isOnline = false →
      ep.flushCachedData = (.offline, ep))
    ∧ (∃ tail, ((ep.ingestMeasurement now m).2).offlineCacheManager.events
        = ep.offlineCacheManager.events ++ tail)
    ∧ (ep.setOnline flag).offlineCacheManager.events
        = ep.offlineCacheManager.events := by
  refine ⟨?_, ?_, ?_⟩
  · intro hoff
    simp [EdgeProcessor.flushCachedData,
      OfflineCacheManager.checkConnectivityStatus, hoff]
  · cases hv : (ep.checkQuality m).1 with
    | fail r =>
      refine ⟨[], ?_⟩
      simp [EdgeProcessor.ingestMeasurement, hv]
    | pass =>
      obtain ⟨-, -, -, -, -, t1, ht1⟩ := afterWindow_fields ep m
      cases hf : ep.pipelineFinding now m with
      | none =>
        refine ⟨t1, ?_⟩
        have hres : (ep.ingestMeasurement now m).2 = ep.afterWindow m := by
          simp [EdgeProcessor.ingestMeasurement, hv, hf]
        rw [hres]
        exact ht1
      | some f =>
        cases hd : ((ep.afterWindow m).alertManager.applyDebounceRules now
            m.patientId f).1 with
        | false =>
          refine ⟨t1, ?_⟩
          have hres : (ep.ingestMeasurement now m).2
              = { ep.afterWindow m with alertManager :=
                  ((ep.afterWindow m).alertManager.applyDebounceRules now
                    m.patientId f).2 } := by
            simp [EdgeProcessor.ingestMeasurement, hv, hf, hd]
          rw [hres]
          exact ht1
        | true =>
          have hres : (ep.ingestMeasurement now m).2
              = (({ ep.afterWindow m with alertManager :=
                    ((ep.afterWindow m).alertManager.applyDebounceRules now
                      m.patientId f).2 } : EdgeProcessor).handleAlertDelivery
                  (AlertManager.createAlert
                    ((ep.afterWindow m).alertManager.applyDebounceRules now
                      m.patientId f).2 now m.patientId f
                    m.measurementType)).2 := by
            simp [EdgeProcessor.ingestMeasurement, hv, hf, hd]
          obtain ⟨t2, ht2⟩ := handleAlertDelivery_events
            ({ ep.afterWindow m with alertManager :=
                ((ep.afterWindow m).alertManager.applyDebounceRules now
                  m.patientId f).2 } : EdgeProcessor)
            (AlertManager.createAlert
              ((ep.afterWindow m).alertManager.applyDebounceRules now
                m.patientId f).2 now m.patientId f m.measurementType)
          refine ⟨t1 ++ t2, ?_⟩
          calc ((ep.ingestMeasurement now m).2).offlineCacheManager.events
              = (ep.afterWindow m).offlineCacheManager.events ++ t2 := by
                rw [hres]; exact ht2
            _ = (ep.offlineCacheManager.events ++ t1) ++ t2 := by rw [ht1]
            _ = ep.offlineCacheManager.events ++ (t1 ++ t2) := by
                rw [List.append_assoc]
  · simp [EdgeProcessor.setOnline, OfflineCacheManager.setOnline]

/-- Closed instance of the C9 theorem at an offline fixture orchestrator
(discharging the offline hypothesis concretely). -/
theorem c9_offline_flush_noop_and_cache_retained_witness :
    ((epFix.setOnline false).flushCachedData = (.offline, epFix.setOnline false))
    ∧ (∃ tail, (((epFix.setOnline false).ingestMeasurement 1000
        mFix).2).offlineCacheManager.events
        = (epFix.setOnline false).offlineCacheManager.events ++ tail)
    ∧ ((epFix.setOnline false).setOnline true).offlineCacheManager.events
        = (epFix.setOnline false).offlineCacheManager.events :=
  ⟨(c9_offline_flush_noop_and_cache_retained (epFix.setOnline false) 1000 mFix
      true).1 (by rfl),
   (c9_offline_flush_noop_and_cache_retained (epFix.setOnline false) 1000 mFix
      true).2.1,
   (c9_offline_flush_noop_and_cache_retained (epFix.setOnline false) 1000 mFix
      true).2.2⟩

/-- C10: the cache-level stores append the wrapped event unconditionally —
for every cache state, online included, the queue grows by exactly the
wrapped event and the connectivity flag is untouched — while the
online/offline gating lives in the orchestrator's delivery handlers: online
they leave the state alone (alerts are published as the identity), offline
they append the wrapped event to the queue. -/
theorem c10_stores_unconditional_gating_in_handlers
    (c : OfflineCacheManager) (m : Measurement) (a : AlertEvent)
    (ep : EdgeProcessor) :
    (c.storeMeasurement m).events = c.events ++ [wrapMeasurement m]
    ∧ (c.storeMeasurement m).isOnline = c.isOnline
    ∧ (c.storeAlert a).events = c.events ++ [wrapAlert a]
    ∧ (c.storeAlert a).isOnline = c.isOnline
    ∧ (ep.offlineCacheManager.isOnline = true →
        ep.handleMeasurementDelivery m = ep
        ∧ ep.handleAlertDelivery a = (a, ep))
    ∧ (ep.offlineCacheManager.isOnline = false →
        (ep.handleMeasurementDelivery m).offlineCacheManager.events
          = ep.offlineCacheManager.events ++ [wrapMeasurement m]
        ∧ ((ep.handleAlertDelivery a).2).offlineCacheManager.events
          = ep.offlineCacheManager.events ++ [wrapAlert a]) := by
  refine ⟨?_, ?_, ?_, ?_, ?_, ?_⟩
  · simp [OfflineCacheManager.storeMeasurement]
  · simp [OfflineCacheManager.storeMeasurement]
  · simp [OfflineCacheManager.storeAlert]
  · simp [OfflineCacheManager.storeAlert]
  · intro hon
    refine ⟨?_, (handleAlertDelivery_cases ep a).1 hon⟩
    simp [EdgeProcessor.handleMeasurementDelivery,
      OfflineCacheManager.checkConnectivityStatus, hon]
  · intro hoff
    constructor
    · simp [EdgeProcessor.handleMeasurementDelivery, EdgeProcessor.cacheEvent,
        OfflineCacheManager.storeMeasurement,
        OfflineCacheManager.checkConnectivityStatus, hoff]
    · rw [(handleAlertDelivery_cases ep a).2 hoff]
      simp [OfflineCacheManager.storeAlert]

/-- Closed instance of the C10 theorem: an online cache still enqueues both
stores, and the online orchestrator handlers deliver without caching. -/
theorem c10_stores_unconditional_gating_in_handlers_witness :
    ((⟨[], true⟩ : OfflineCacheManager).storeMeasurement mFix).events
        = [] ++ [wrapMeasurement mFix]
    ∧ ((⟨[], true⟩ : OfflineCacheManager).storeMeasurement mFix).isOnline = true
    ∧ ((⟨[], true⟩ : OfflineCacheManager).storeAlert alertFix).events
        = [] ++ [wrapAlert alertFix]
    ∧ ((⟨[], true⟩ : OfflineCacheManager).storeAlert alertFix).isOnline = true
    ∧ (epFix.handleMeasurementDelivery mFix = epFix
        ∧ epFix.handleAlertDelivery alertFix = (alertFix, epFix)) :=
  ⟨(c10_stores_unconditional_gating_in_handlers ⟨[], true⟩ mFix alertFix
      epFix).1,
   (c10_stores_unconditional_gating_in_handlers ⟨[], true⟩ mFix alertFix
      epFix).2.1,
   (c10_stores_unconditional_gating_in_handlers ⟨[], true⟩ mFix alertFix
      epFix).2.2.1,
   (c10_stores_unconditional_gating_in_handlers ⟨[], true⟩ mFix alertFix
      epFix).2.2.2.1,
   (c10_stores_unconditional_gating_in_handlers ⟨[], true⟩ mFix alertFix
      epFix).2.2.2.2.1 (by rfl)⟩

/-- C6: the cache's `flushCachedData` returns the stored events exactly
once (a permutation of the queue), sorted ascending by the event timestamp
derived from each payload, and leaves the internal queue empty; hence the
orchestrator's `flushCachedData`, called again right after a flush while
online, returns the flushed status with empty measurement and alert
lists. -/
theorem c6_flush_sorted_drain_idempotent (c : OfflineCacheManager)
    (ep : EdgeProcessor) :
    ((c.flushCachedData).1.Perm c.events)
    ∧ List.Sorted (fun a b : CachedEvent => a.timestamp ≤ b.timestamp)
        (c.flushCachedData).1
    ∧ (c.flushCachedData).2.events = []
    ∧ (c.flushCachedData).2.isOnline = c.isOnline
    ∧ (ep.offlineCacheManager.isOnline = true →
        (((ep.flushCachedData).2).flushCachedData).1 = .flushed [] []) := by
  refine ⟨?_, ?_, rfl, rfl, ?_⟩
  · exact List.mergeSort_perm c.events cachedLe
  · have htrans : ∀ a b c : CachedEvent, cachedLe a b = true
        → cachedLe b c = true → cachedLe a c = true := by
      intro a b c hab hbc
      simp [cachedLe] at hab hbc ⊢
      omega
    have htotal : ∀ a b : CachedEvent,
        (cachedLe a b || cachedLe b a) = true := by
      intro a b
      simp [cachedLe]
      omega
    have hpw := List.sorted_mergeSort htrans htotal c.events
    have : (fun a b : CachedEvent => cachedLe a b = true)
        = fun a b : CachedEvent => a.timestamp ≤ b.timestamp := by
      funext a b
      simp [cachedLe]
    rw [List.Sorted, ← this]
    exact hpw
  · intro hon
    have h1 : (ep.flushCachedData).2
        = { ep with offlineCacheManager :=
            { ep.offlineCacheManager with events := [] } } := by
      simp [EdgeProcessor.flushCachedData,
        OfflineCacheManager.checkConnectivityStatus, hon,
        EdgeProcessor.syncCachedEvents, OfflineCacheManager.flushCachedData]
    rw [h1]
    simp [EdgeProcessor.flushCachedData,
      OfflineCacheManager.checkConnectivityStatus, hon,
      EdgeProcessor.syncCachedEvents, OfflineCacheManager.flushCachedData]

/-- Closed instance of the C6 theorem: a two-event online queue, with the
online hypothesis of the re-flush conjunct discharged concretely. -/
theorem c6_flush_sorted_drain_idempotent_witness :
    ((OfflineCacheManager.flushCachedData
        ⟨[wrapAlert alertFix, wrapMeasurement mFix], true⟩).1.Perm
      [wrapAlert alertFix, wrapMeasurement mFix])
    ∧ (OfflineCacheManager.flushCachedData
        ⟨[wrapAlert alertFix, wrapMeasurement mFix], true⟩).2.events = []
    ∧ ((({ epFix with offlineCacheManager :=
          ⟨[wrapAlert alertFix, wrapMeasurement mFix], true⟩ } :
            EdgeProcessor).flushCachedData.2).flushCachedData).1
        = .flushed [] [] :=
  ⟨(c6_flush_sorted_drain_idempotent
      ⟨[wrapAlert alertFix, wrapMeasurement mFix], true⟩ epFix).1,
   (c6_flush_sorted_drain_idempotent
      ⟨[wrapAlert alertFix, wrapMeasurement mFix], true⟩ epFix).2.2.1,
   (c6_flush_sorted_drain_idempotent ⟨[], true⟩
      { epFix with offlineCacheManager :=
          ⟨[wrapAlert alertFix, wrapMeasurement mFix], true⟩ }).2.2.2.2
      (by rfl)⟩

/-- Behavioural specification of the debounce gate: the interval is
preserved, an allowed call records `now` under the key, a denied call
leaves the state untouched, a truthy recorded instant within the interval
forces denial, and a recorded instant outside the interval (or a fresh key)
allows emission. -/
theorem applyDebounceRules_spec (am : AlertManager) (now : ℤ)
    (patientId : String) (anomaly : Anomaly) :
    (((am.applyDebounceRules now patientId anomaly).2).debounceMs
        = am.debounceMs)
    ∧ ((am.applyDebounceRules now patientId anomaly).1 = true →
        ((am.applyDebounceRules now patientId anomaly).2).lastAlertByKey
          (debounceKey patientId anomaly) = some now)
    ∧ ((am.applyDebounceRules now patientId anomaly).1 = false →
        (am.applyDebounceRules now patientId anomaly).2 = am)
    ∧ (∀ t, am.lastAlertByKey (debounceKey patientId anomaly) = some t →
        t ≠ 0 → now - t < am.debounceMs →
        am.applyDebounceRules now patientId anomaly = (false, am))
    ∧ (∀ t, am.lastAlertByKey (debounceKey patientId anomaly) = some t →
        ¬ (t ≠ 0 ∧ now - t < am.debounceMs) →
        (am.applyDebounceRules now patientId anomaly).1 = true)
    ∧ (am.lastAlertByKey (debounceKey patientId anomaly) = none →
        (am.applyDebounceRules now patientId anomaly).1 = true) := by
  rcases hl : am.lastAlertByKey (debounceKey patientId anomaly) with _ | last
  · refine ⟨?_, ?_, ?_, ?_, ?_, ?_⟩
    · simp [AlertManager.applyDebounceRules, hl]
    · intro _
      simp [AlertManager.applyDebounceRules, hl]
    · intro hfalse
      simp [AlertManager.applyDebounceRules, hl] at hfalse
    · intro t ht
      exact Option.noConfusion ht
    · intro t ht
      exact Option.noConfusion ht
    · intro _
      simp [AlertManager.applyDebounceRules, hl]
  · by_cases hc : last ≠ 0 ∧ now - last < am.debounceMs
    · refine ⟨?_, ?_, ?_, ?_, ?_, ?_⟩
      · simp [AlertManager.applyDebounceRules, hl, hc]
      · intro htrue
        simp [AlertManager.applyDebounceRules, hl, hc] at htrue
      · intro _
        simp [AlertManager.applyDebounceRules, hl, hc]
      · intro t ht h0 hlt
        cases ht
        simp [AlertManager.applyDebounceRules, hl, hc]
      · intro t ht hnc
        cases ht
        exact absurd hc hnc
      · intro hn
        exact Option.noConfusion hn
    · refine ⟨?_, ?_, ?_, ?_, ?_, ?_⟩
      · simp [AlertManager.applyDebounceRules, hl, hc]
      · intro _
        simp [AlertManager.applyDebounceRules, hl, hc]
      · intro hfalse
        simp [AlertManager.applyDebounceRules, hl, hc] at hfalse
      · intro t ht h0 hlt
        cases ht
        exact absurd ⟨h0, hlt⟩ hc
      · intro t ht hnc
        simp [AlertManager.applyDebounceRules, hl, hc]
      · intro hn
        exact Option.noConfusion hn

/-- C5: the debounce gate never lets two emissions for one
(patientId, measurementType, anomalyType) key through strictly less than
`debounceMs` apart (for real, positive `Date.now()` instants): after an
accepted emission at `now1`, any identical anomaly at `now2` with
`now2 - now1 < debounceMs` is denied without touching the debounce state,
and at the pipeline level such a denial makes `ingestMeasurement` return
ok with note "debounced", while once `now - t1 ≥ debounceMs` the identical
anomaly yields an alert again. -/
theorem c5_debounce_interval (am : AlertManager) (now1 now2 : ℤ)
    (patientId : String) (anomaly : Anomaly) (ep : EdgeProcessor)
    (m : Measurement) (f : Anomaly) (t1 now : ℤ)
    (h0 : 0 < now1)
    (hallow : (am.applyDebounceRules now1 patientId anomaly).1 = true)
    (hlt12 : now2 - now1 < am.debounceMs)
    (hpass : (ep.checkQuality m).1 = .pass)
    (hf : ep.pipelineFinding now m = some f)
    (ht1 : ep.alertManager.lastAlertByKey (debounceKey m.patientId f)
        = some t1)
    (ht10 : t1 ≠ 0) :
    (((am.applyDebounceRules now1 patientId anomaly).2).applyDebounceRules
        now2 patientId anomaly
      = (false, (am.applyDebounceRules now1 patientId anomaly).2))
    ∧ (now - t1 < ep.alertManager.debounceMs →
        (ep.ingestMeasurement now m).1 = .ok m (some ("debounced")))
    ∧ (now - t1 ≥ ep.alertManager.debounceMs →
        ((ep.ingestMeasurement now m).1).status = ("alert")
        ∧ ((ep.ingestMeasurement now m).1).anomalyTypeOf
            = some f.anomalyType) := by
  have ham : (ep.afterWindow m).alertManager = ep.alertManager :=
    (afterWindow_fields ep m).2.2.1
  refine ⟨?_, ?_, ?_⟩
  · have hset := (applyDebounceRules_spec am now1 patientId anomaly).2.1 hallow
    have hdeb := (applyDebounceRules_spec am now1 patientId anomaly).1
    exact (applyDebounceRules_spec _ now2 patientId anomaly).2.2.2.1 now1 hset
      (by omega) (by rw [hdeb]; exact hlt12)
  · intro hlt
    have hd : (ep.afterWindow m).alertManager.applyDebounceRules now
        m.patientId f = (false, ep.alertManager) := by
      rw [ham]
      exact (applyDebounceRules_spec ep.alertManager now m.patientId f).2.2.2.1
        t1 ht1 ht10 hlt
    simp [EdgeProcessor.ingestMeasurement, hpass, hf, hd]
  · intro hge
    have hd1 : ((ep.afterWindow m).alertManager.applyDebounceRules now
        m.patientId f).1 = true := by
      rw [ham]
      exact (applyDebounceRules_spec ep.alertManager now m.patientId f).2.2.2.2.1
        t1 ht1 (by push_neg; intro _; omega)
    constructor <;>
      simp [EdgeProcessor.ingestMeasurement, hpass, hf, hd1,
        IngestResult.status, IngestResult.anomalyTypeOf]

/-- Closed instance of the C5 theorem: debounce 60000 ms, an accepted
emission at 1000, an identical anomaly at 2000 (denied, pipeline returns
the debounced note) and at 70000 (alert again). -/
theorem c5_debounce_interval_witness :
    ((((epFix.alertManager.applyDebounceRules 1000 ("P001")
        (anomalyDebAt 2000)).2).applyDebounceRules 2000 ("P001")
        (anomalyDebAt 2000))
      = (false, (epFix.alertManager.applyDebounceRules 1000 ("P001")
          (anomalyDebAt 2000)).2))
    ∧ ((2000 : ℤ) - 1000 < epDebFix.alertManager.debounceMs →
        (epDebFix.ingestMeasurement 2000 mFix).1
          = .ok mFix (some ("debounced")))
    ∧ ((2000 : ℤ) - 1000 ≥ epDebFix.alertManager.debounceMs →
        ((epDebFix.ingestMeasurement 2000 mFix).1).status = ("alert")
        ∧ ((epDebFix.ingestMeasurement 2000 mFix).1).anomalyTypeOf
            = some (anomalyDebAt 2000).anomalyType) :=
  c5_debounce_interval epFix.alertManager 1000 2000 ("P001")
    (anomalyDebAt 2000) epDebFix mFix (anomalyDebAt 2000) 1000 2000
    (by decide)
    (by rfl)
    (by decide)
    (by decide)
    (by
      simp [EdgeProcessor.pipelineFinding, EdgeProcessor.afterWindow,
        EdgeProcessor.handleMeasurementDelivery, EdgeProcessor.checkQuality,
        OfflineCacheManager.checkConnectivityStatus,
        SignalValidator.buildValidationResult,
        SignalValidator.validateSignalQuality,
        SignalValidator.checkValuePlausibility,
        SignalValidator.verifyTimestampConsistency,
        SignalValidator.setLastTimestamp, MIN_SIGNAL_QUALITY,
        SignalProcessor.updateMeasurementWindow, trimWindow,
        SignalProcessor.getSmoothedWindow, SignalProcessor.getSlidingWindow,
        streamKey, AnomalyDetector.detectThresholdAnomaly, createAnomaly,
        smoothAt, epDebFix, epFix, EdgeProcessor.init, cfgFix, mFix,
        sampleMeasurement, anomalyDebAt, OfflineCacheManager.init] <;>
      norm_num)
    (by rfl)
    (by decide)

/-- A positive window size means the trimmed non-empty window stays
non-empty. -/
theorem trimWindow_ne_nil (w : Nat) (arr : List Measurement) (hw : 0 < w)
    (ha : arr ≠ []) : trimWindow w arr ≠ [] := by
  rw [trimWindow_eq_drop]
  intro h
  have hlen := congrArg List.length h
  rw [List.length_drop] at hlen
  simp only [List.length_nil] at hlen
  have hne : arr.length ≠ 0 := by simpa [List.length_eq_zero] using ha
  omega

/-- C2: in the ingest pipeline the threshold rule for HEART_RATE reads the
smoothed window of the just-updated stream, whose last sample's value is
the arithmetic mean of the raw window — so an anomaly is raised exactly
when that mean exceeds the configured max, any raised threshold anomaly's
observed value is that mean, and concretely ingesting HEART_RATE=140 into
a fresh orchestrator configured with max 120 returns an alert of type
THRESHOLD_HIGH. -/
theorem c2_threshold_rule_compares_window_mean (ep : EdgeProcessor)
    (now : ℤ) (m : Measurement) (t : Range)
    (hm : m.measurementType = ("HEART_RATE"))
    (hth : ep.anomalyDetector.thresholds ("HEART_RATE") = some t)
    (hwsz : 0 < ep.signalProcessor.windowSize) :
    (ep.anomalyDetector.detectThresholdAnomaly now
        ((ep.afterWindow m).signalProcessor.getSmoothedWindow m.patientId
          m.measurementType) m.measurementType ≠ none
      ↔ mean (((ep.afterWindow m).signalProcessor.getSlidingWindow
          m.patientId m.measurementType).map Measurement.value) > t.max)
    ∧ (∀ a, ep.anomalyDetector.detectThresholdAnomaly now
        ((ep.afterWindow m).signalProcessor.getSmoothedWindow m.patientId
          m.measurementType) m.measurementType = some a
        → a.observedValue = mean (((ep.afterWindow
            m).signalProcessor.getSlidingWindow m.patientId
            m.measurementType).map Measurement.value))
    ∧ ((epFix.ingestMeasurement 1000 mFix).1.status = ("alert")
        ∧ (epFix.ingestMeasurement 1000 mFix).1.anomalyTypeOf
            = some ("THRESHOLD_HIGH")) := by
  have hproc := (afterWindow_fields ep m).1
  have hraw_ne : (ep.afterWindow m).signalProcessor.getSlidingWindow
      m.patientId m.measurementType ≠ [] := by
    rw [hproc]
    show ((ep.signalProcessor.updateMeasurementWindow m.patientId
        m.measurementType m).2).windows
        (streamKey m.patientId m.measurementType) ≠ []
    rw [(updateMeasurementWindow_eq ep.signalProcessor m.patientId
      m.measurementType m).1]
    exact trimWindow_ne_nil _ _ hwsz (by simp)
  obtain ⟨lr, hlr⟩ : ∃ lr, ((ep.afterWindow m).signalProcessor.getSlidingWindow
      m.patientId m.measurementType).getLast? = some lr := by
    cases hl : ((ep.afterWindow m).signalProcessor.getSlidingWindow
        m.patientId m.measurementType).getLast? with
    | none => exact absurd (List.getLast?_eq_none.mp hl) hraw_ne
    | some a => exact ⟨a, rfl⟩
  have hsm := SignalProcessor.getSmoothedWindow_eq_map_mean
    (ep.afterWindow m).signalProcessor m.patientId m.measurementType hraw_ne
  have hlast : ((ep.afterWindow m).signalProcessor.getSmoothedWindow
      m.patientId m.measurementType).getLast?
      = some (smoothAt (mean (((ep.afterWindow
          m).signalProcessor.getSlidingWindow m.patientId
          m.measurementType).map Measurement.value)) lr) := by
    rw [hsm, List.getLast?_map, hlr]
    rfl
  rw [hm] at hlast ⊢
  have hdet := detectThresholdAnomaly_heartRate_eq ep.anomalyDetector now
    ((ep.afterWindow m).signalProcessor.getSmoothedWindow m.patientId
      ("HEART_RATE"))
    (smoothAt (mean (((ep.afterWindow m).signalProcessor.getSlidingWindow
      m.patientId ("HEART_RATE")).map Measurement.value)) lr) t hlast hth
  refine ⟨?_, ?_, ?_⟩
  · rw [hdet]
    by_cases hv : mean (((ep.afterWindow m).signalProcessor.getSlidingWindow
        m.patientId ("HEART_RATE")).map Measurement.value) > t.max
    · simpa [smoothAt] using hv
    · simpa [smoothAt] using hv
  · intro a ha
    rw [hdet] at ha
    by_cases hv : (smoothAt (mean (((ep.afterWindow
        m).signalProcessor.getSlidingWindow m.patientId
        ("HEART_RATE")).map Measurement.value)) lr).value > t.max
    · rw [if_pos hv] at ha
      cases ha
      rfl
    · rw [if_neg hv] at ha
      exact Option.noConfusion ha
  · have hv : (epFix.checkQuality mFix).1 = .pass := by decide
    have hf : epFix.pipelineFinding 1000 mFix = some (anomalyDebAt 1000) := by
      simp [EdgeProcessor.pipelineFinding, EdgeProcessor.afterWindow,
        EdgeProcessor.handleMeasurementDelivery, EdgeProcessor.checkQuality,
        OfflineCacheManager.checkConnectivityStatus,
        SignalValidator.buildValidationResult,
        SignalValidator.validateSignalQuality,
        SignalValidator.checkValuePlausibility,
        SignalValidator.verifyTimestampConsistency,
        SignalValidator.setLastTimestamp, MIN_SIGNAL_QUALITY,
        SignalProcessor.updateMeasurementWindow, trimWindow,
        SignalProcessor.getSmoothedWindow, SignalProcessor.getSlidingWindow,
        streamKey, AnomalyDetector.detectThresholdAnomaly, createAnomaly,
        smoothAt, epFix, EdgeProcessor.init, cfgFix, mFix,
        sampleMeasurement, anomalyDebAt, OfflineCacheManager.init] <;>
      norm_num
    have hd1 : ((epFix.afterWindow mFix).alertManager.applyDebounceRules 1000
        mFix.patientId (anomalyDebAt 1000)).1 = true := by
      rw [(afterWindow_fields epFix mFix).2.2.1]
      exact (applyDebounceRules_spec epFix.alertManager 1000 mFix.patientId
        (anomalyDebAt 1000)).2.2.2.2.2 (by rfl)
    simp [anomalyDebAt, createAnomaly] at hd1
    constructor <;>
      simp [EdgeProcessor.ingestMeasurement, hv, hf, hd1,
        IngestResult.status, IngestResult.anomalyTypeOf, anomalyDebAt,
        createAnomaly]

/-- Closed instance of the C2 theorem at the fixture orchestrator
(`HEART_RATE` threshold max 120, window size 5, measurement 140). -/
theorem c2_threshold_rule_compares_window_mean_witness :
    (epFix.anomalyDetector.detectThresholdAnomaly 1000
        ((epFix.afterWindow mFix).signalProcessor.getSmoothedWindow
          mFix.patientId mFix.measurementType) mFix.measurementType ≠ none
      ↔ mean (((epFix.afterWindow mFix).signalProcessor.getSlidingWindow
          mFix.patientId mFix.measurementType).map Measurement.value)
          > ({ min := 0, max := 120 } : Range).max)
    ∧ ((epFix.ingestMeasurement 1000 mFix).1.status = ("alert")
        ∧ (epFix.ingestMeasurement 1000 mFix).1.anomalyTypeOf
            = some ("THRESHOLD_HIGH")) :=
  ⟨(c2_threshold_rule_compares_window_mean epFix 1000 mFix
      { min := 0, max := 120 } (by rfl) (by rfl) (by decide)).1,
   (c2_threshold_rule_compares_window_mean epFix 1000 mFix
      { min := 0, max := 120 } (by rfl) (by rfl) (by decide)).2.2⟩

end MedAlert
